import Mathlib

/-!
# ChimpStackr — verification of the MainWindow / Stacking-Engine interface

A shallow embedding of `src/MainWindow/MainWindow.py` and of the Stacking
Engine interface it drives (`src/algorithm/API.py`, whose body is not part
of the available sources and is therefore modelled from the specification
where it decides a property).

The embedding tracks the state that the claims talk about:
the loaded image path list (`settings.globalVars["LoadedImagePaths"]`),
the current image directory, the engine (`self.LaplacianAlgorithm`), the
displayed processed image (central widget), the number of active stacking
workers on the thread pool, and the `TimeRemainingHandler` duration cache.
-/

namespace ChimpStackr

/-- Shape of a decoded image array: `(height, width, channels)` as in
numpy's `ndarray.shape` for a colour image. -/
structure Shape where
  height : Nat
  width : Nat
  channels : Nat
deriving DecidableEq, Repr

/-- Element type of an image array (the test asserts `np.uint8` for the
output image; intermediate arithmetic is at higher precision). -/
inductive Dtype where
  | uint8
  | float64
deriving DecidableEq, Repr

/-- A decoded image array: its spatial/channel extent and element type.
Pixel contents are not needed by any claim. -/
structure ImageArray where
  shape : Shape
  dtype : Dtype
deriving DecidableEq, Repr

/-- State of the Stacking Engine (`algorithm_API.LaplacianPyramid`):
the input path list (`image_paths`), the last produced output image
(`output_image`, `None` before any completed run) and the keys
`(image_index, level_index)` currently held by the disk-backed pyramid
store. -/
structure EngineState where
  image_paths : List String
  output_image : Option ImageArray
  pyramidStore : List (Nat × Nat)
deriving DecidableEq, Repr

/-- Modelled from the spec: the engine constructor
`Engine(scratch_directory, pyramid_depth, max_concurrency)` of
`src/algorithm/API.py` is not under the available sources; per §6 the
fresh engine has the empty input set and no OutputImage
(`output_image()` returns an empty/absent value if no run has completed). -/
def EngineState.init : EngineState :=
  { image_paths := [], output_image := none, pyramidStore := [] }

/-- Modelled from the spec: `set_images(ordered_list_of_image_paths)` of
`src/algorithm/API.py` (`update_image_paths` in the code) is not under the
available sources; per §6 it replaces the current input set, invalidates
any previous OutputImage and clears the PyramidStore for the prior run. -/
def update_image_paths (_e : EngineState) (paths : List String) : EngineState :=
  { image_paths := paths, output_image := none, pyramidStore := [] }

/-- Modelled from the spec: `stack_images` of `src/algorithm/API.py` is not
under the available sources; per §3/§6 a completed run produces an
OutputImage with the same extent and channel layout as the reference
SourceImage (index 0), clamped to the valid 8-bit output intensity range.
`decoded` are the shapes of the decoded input images, in input order. -/
def stack_images (e : EngineState) (decoded : List Shape) : EngineState :=
  match decoded with
  | [] => e
  | refShape :: _ => { e with output_image := some ⟨refShape, Dtype.uint8⟩ }

/-- The three construction parameters of the Stacking Engine
(`Engine(scratch_directory, pyramid_depth, max_concurrency)`, §6). -/
structure EngineConfig where
  scratch_directory : String
  pyramid_depth : Nat
  max_concurrency : Nat
deriving DecidableEq, Repr

/-- Modelled from the spec: the construction precondition of
`src/algorithm/API.py` (not under the available sources) per §6 —
`scratch_directory` must be writable, `pyramid_depth ≥ 1`,
`max_concurrency ≥ 1`. Writability is relative to the set of writable
directories `writable`. -/
def EngineConfig.valid (writable : List String) (c : EngineConfig) : Prop :=
  c.scratch_directory ∈ writable ∧ 1 ≤ c.pyramid_depth ∧ 1 ≤ c.max_concurrency

instance (w : List String) (c : EngineConfig) : Decidable (c.valid w) := by
  unfold EngineConfig.valid
  infer_instance

/-- The arguments the main window supplies to the engine constructor
(`MainWindow.py` line 58: `LaplacianPyramid(RootTempDir, 6, 8)`). -/
def windowEngineConfig (rootTempDir : String) : EngineConfig :=
  { scratch_directory := rootTempDir, pyramid_depth := 6, max_concurrency := 8 }

/-- `os.path.dirname` for POSIX-style paths: everything before the final
path separator. -/
def dirname (p : String) : String :=
  let parts := p.splitOn "/"
  match parts with
  | [] => ""
  | [_] => ""
  | _ => String.intercalate "/" parts.dropLast

/-- State of the main window (`Window` in `MainWindow.py`) as far as the
claims are concerned. `runsCompleted` counts the stacking runs that have
run to completion (it backs the phrase "no run has completed"). -/
structure WindowState where
  loadedImagePaths : List String
  currentImageDirectory : String
  engine : EngineState
  displayedOutput : Option ImageArray
  activeWorkers : Nat
  timeCache : List (String × ℚ)
  runsCompleted : Nat
deriving DecidableEq, Repr

/-- The window state right after `Window.__init__`: no loaded images, the
home directory as reference directory, a fresh engine, no displayed
output, no workers, an empty `TimeRemainingHandler` cache. -/
def WindowState.init : WindowState :=
  { loadedImagePaths := []
    currentImageDirectory := "~"
    engine := EngineState.init
    displayedOutput := none
    activeWorkers := 0
    timeCache := []
    runsCompleted := 0 }

/-- `Window.clear_all_images` (MainWindow.py lines 120-148). If engine
image paths are loaded, a confirmation dialog is shown (`confirmOk` is the
user's answer); on Ok everything is cleared and `True` is returned, on
Cancel nothing changes and `False` is returned. With no loaded images it
returns `True` without touching anything. -/
def clear_all_images (s : WindowState) (confirmOk : Bool) : WindowState × Bool :=
  if 0 < s.engine.image_paths.length then
    if confirmOk then
      ({ s with loadedImagePaths := []
                engine := update_image_paths s.engine []
                displayedOutput := none }, true)
    else
      (s, false)
  else
    (s, true)

/-- `Window.set_new_loaded_image_files` (MainWindow.py lines 151-163):
with a non-empty list, first `clear_all_images` (aborting if it returns
`False`), then the current image directory, the central widget, the
engine's path list and the global loaded-path list are all set from the
new list. With an empty list nothing happens. -/
def set_new_loaded_image_files (s : WindowState) (newImgs : List String)
    (confirmOk : Bool) : WindowState :=
  if 0 < newImgs.length then
    let cleared := clear_all_images s confirmOk
    if cleared.2 = false then s
    else
      { cleared.1 with
          currentImageDirectory := dirname newImgs.headI
          loadedImagePaths := newImgs
          engine := update_image_paths cleared.1.engine newImgs }
  else s

/-- Observable outcome of invoking one of the two run entry points. -/
inductive RunOutcome where
  /-- The "Failed to stack images. Please load images first." error box. -/
  | errorNoImages
  /-- A `QThreading.Worker` was handed to the thread pool. -/
  | workerStarted
  /-- `LaplacianAlgorithm.align_and_stack_images()` was invoked in place. -/
  | algorithmInvoked
deriving DecidableEq, Repr

/-- `Window.stack_loaded_images` (MainWindow.py lines 199-242): with no
loaded image paths an error box is shown and the method returns; otherwise
a worker running `LaplacianAlgorithm.stack_images` is started on the
thread pool. There is no other guard. -/
def stack_loaded_images (s : WindowState) : WindowState × RunOutcome :=
  if s.loadedImagePaths.length = 0 then
    (s, RunOutcome.errorNoImages)
  else
    ({ s with activeWorkers := s.activeWorkers + 1 }, RunOutcome.workerStarted)

/-- `Window.align_and_stack_loaded_images` (MainWindow.py lines 183-197):
with no loaded image paths an error box is shown and the method returns;
otherwise `LaplacianAlgorithm.align_and_stack_images()` runs synchronously
(alignment then the stacking pipeline, modelled through `stack_images` on
the decoded input shapes). No worker is started and `finished_stack` does
not fire on this path. -/
def align_and_stack_loaded_images (s : WindowState) (decoded : List Shape) :
    WindowState × RunOutcome :=
  if s.loadedImagePaths.length = 0 then
    (s, RunOutcome.errorNoImages)
  else
    ({ s with engine := stack_images s.engine decoded
              runsCompleted := s.runsCompleted + 1 }, RunOutcome.algorithmInvoked)

/-- Outcome of `Window.export_output_image`. -/
inductive ExportOutcome where
  /-- The "Failed to export! Please load images first." error box
  (no output image available). -/
  | errorNoOutput
  /-- The save-file dialog was dismissed (empty path): nothing happens. -/
  | cancelled
  /-- `cv2.imwrite` succeeded and a success box is shown. -/
  | success
  /-- `cv2.imwrite` raised and the "Export failed" error box is shown. -/
  | writeFailed
deriving DecidableEq, Repr

/-- `Window.export_output_image` (MainWindow.py lines 67-117). `dialogPath`
is the path the save dialog returned (`none` for an empty/cancelled
dialog); `writeSucceeds` says whether `cv2.imwrite` succeeds there. The
third component lists the files written to disk by the call. -/
def export_output_image (s : WindowState) (dialogPath : Option String)
    (writeSucceeds : Bool) : WindowState × ExportOutcome × List String :=
  match s.engine.output_image with
  | none => (s, ExportOutcome.errorNoOutput, [])
  | some _ =>
    match dialogPath with
    | none => (s, ExportOutcome.cancelled, [])
    | some p =>
      let s1 := { s with currentImageDirectory := dirname p }
      if writeSucceeds then (s1, ExportOutcome.success, [p])
      else (s1, ExportOutcome.writeFailed, [])

/-- External events driving the window, in the order the Qt shell would
deliver them. `interTask` is one `finished_inter_task` signal from the
running worker (stage key and observed per-image duration); `finishStack`
is the worker finishing `stack_images` (on the decoded input shapes)
followed by the `finished_stack` slot. -/
inductive WEvent where
  | setImages (paths : List String) (confirmOk : Bool)
  | clearImages (confirmOk : Bool)
  | startStack
  | startAlignStack (decoded : List Shape)
  | interTask (key : String) (dur : ℚ)
  | finishStack (decoded : List Shape)
deriving DecidableEq, Repr

/-- One step of the window's event loop. Worker-borne events (`interTask`,
`finishStack`) can only be delivered while a worker is active.
`finishStack` performs the run's `stack_images`, then — as
`Window.finished_stack` (MainWindow.py lines 245-254) — displays the
engine's output image and clears the `TimeRemainingHandler` cache. -/
def stepW (s : WindowState) (ev : WEvent) : WindowState :=
  match ev with
  | WEvent.setImages ps c => set_new_loaded_image_files s ps c
  | WEvent.clearImages c => (clear_all_images s c).1
  | WEvent.startStack => (stack_loaded_images s).1
  | WEvent.startAlignStack d => (align_and_stack_loaded_images s d).1
  | WEvent.interTask k t =>
    if 0 < s.activeWorkers then { s with timeCache := (k, t) :: s.timeCache }
    else s
  | WEvent.finishStack d =>
    if 0 < s.activeWorkers then
      let e := stack_images s.engine d
      { s with engine := e
               displayedOutput := e.output_image
               timeCache := []
               activeWorkers := s.activeWorkers - 1
               runsCompleted := s.runsCompleted + 1 }
    else s

/-- Run the window from a state through a list of events. -/
def runW (s : WindowState) (evs : List WEvent) : WindowState :=
  evs.foldl stepW s

/-! ## ProgressModel (§4.6), modelled from the spec

`TimeRemainingHandler.calculate_progressbar_value` is not under the
available sources; per §4.6 each stage has a fixed relative weight
(align 20, build 40, fuse 30, collapse 10) and the overall percentage is
the weighted sum of each stage's own `images_done/images_total`. -/

/-- An immutable per-image completion record
`{stage_key, images_done, images_total, elapsed}` (§3 StageEvent). -/
structure StageEvent where
  stage_key : String
  images_done : Nat
  images_total : Nat
  elapsed : ℚ
deriving DecidableEq, Repr

/-- Modelled from the spec: the fixed relative stage weights of §4.6
(align 20%, build 40%, fuse 30%, collapse 10%). -/
def stageWeight (key : String) : ℚ :=
  if key = "align" then 20
  else if key = "build" then 40
  else if key = "fuse" then 30
  else if key = "collapse" then 10
  else 0

/-- The latest known completion fraction `images_done/images_total` of each
of the four stages of the current run. -/
structure ProgressState where
  fracAlign : ℚ
  fracBuild : ℚ
  fracFuse : ℚ
  fracCollapse : ℚ
deriving DecidableEq, Repr

/-- Fresh ProgressModel state at the start of a run: nothing done yet. -/
def ProgressState.init : ProgressState :=
  { fracAlign := 0, fracBuild := 0, fracFuse := 0, fracCollapse := 0 }

/-- The completion fraction currently recorded for a stage key (0 for a
key that is not one of the four stages). -/
def ProgressState.frac (p : ProgressState) (key : String) : ℚ :=
  if key = "align" then p.fracAlign
  else if key = "build" then p.fracBuild
  else if key = "fuse" then p.fracFuse
  else if key = "collapse" then p.fracCollapse
  else 0

/-- The fraction a StageEvent reports: `images_done / images_total`. -/
def StageEvent.frac (ev : StageEvent) : ℚ :=
  (ev.images_done : ℚ) / (ev.images_total : ℚ)

/-- Modelled from the spec: `ProgressModel.record(StageEvent)` (§4.6)
stores the event's own `images_done/images_total` as its stage's current
completion fraction. Events for an unknown stage key are ignored. -/
def ProgressState.record (p : ProgressState) (ev : StageEvent) : ProgressState :=
  if ev.stage_key = "align" then { p with fracAlign := ev.frac }
  else if ev.stage_key = "build" then { p with fracBuild := ev.frac }
  else if ev.stage_key = "fuse" then { p with fracFuse := ev.frac }
  else if ev.stage_key = "collapse" then { p with fracCollapse := ev.frac }
  else p

/-- Modelled from the spec: `ProgressModel.overall_percentage()` (§4.6),
the weighted sum of each stage's own completion fraction. -/
def overall_percentage (p : ProgressState) : ℚ :=
  20 * p.fracAlign + 40 * p.fracBuild + 30 * p.fracFuse + 10 * p.fracCollapse

/-- A StageEvent with a positive image total and at most that many done. -/
def StageEvent.wf (ev : StageEvent) : Prop :=
  0 < ev.images_total ∧ ev.images_done ≤ ev.images_total

instance (ev : StageEvent) : Decidable ev.wf := by
  unfold StageEvent.wf
  infer_instance

/-- A sequence of StageEvents deliverable from state `p`: each event is
well-formed and, per the §6 progress-sink contract (in-order arrival
within one stage key), never reports a smaller fraction than the one its
stage currently shows. -/
inductive DeliverableFrom : ProgressState → List StageEvent → Prop where
  | nil (p : ProgressState) : DeliverableFrom p []
  | cons (p : ProgressState) (ev : StageEvent) (evs : List StageEvent)
      (hwf : ev.wf) (hord : p.frac ev.stage_key ≤ ev.frac)
      (htail : DeliverableFrom (p.record ev) evs) :
      DeliverableFrom p (ev :: evs)

/-- The successive ProgressModel states reached while a list of events is
delivered (the state before the first event included). -/
def progressTrace (p : ProgressState) : List StageEvent → List ProgressState
  | [] => [p]
  | ev :: evs => p :: progressTrace (p.record ev) evs

/-! ## The `finished_inter_task` slot (MainWindow.py lines 214-224) -/

/-- A Python value appearing in a `finished_inter_task` result list:
either a string (the task key) or a number (counts, durations). -/
inductive PyVal where
  | str (s : String)
  | num (q : ℚ)
deriving DecidableEq, Repr

/-- Python tuple unpacking
`task_key, num_processed, num_to_process_total, time_taken = result_list`:
succeeds exactly when the list has four elements, otherwise a ValueError. -/
def unpack4 (l : List PyVal) : Option (PyVal × PyVal × PyVal × PyVal) :=
  match l with
  | [a, b, c, d] => some (a, b, c, d)
  | _ => none

/-- Python division; `none` models a ZeroDivisionError. -/
def pyDiv (a b : ℚ) : Option ℚ :=
  if b = 0 then none else some (a / b)

/-- The percentage computation of the `finished_inter_task` closure
(MainWindow.py lines 214-216): unpack the delivered list as a 4-tuple and
compute `num_processed / num_to_process_total * 100`, with no guard on the
divisor and no type check. `none` models any raised exception. -/
def finished_inter_task_percentage (result_list : List PyVal) : Option ℚ :=
  match unpack4 result_list with
  | some (_, PyVal.num np, PyVal.num nt, _) =>
    (pyDiv np nt).map (fun q => q * 100)
  | _ => none

/-! ## Helper lemmas -/

/-- All four stage fractions lie in `[0, 1]`. -/
def ProgressState.wf (p : ProgressState) : Prop :=
  (0 ≤ p.fracAlign ∧ p.fracAlign ≤ 1) ∧ (0 ≤ p.fracBuild ∧ p.fracBuild ≤ 1) ∧
  (0 ≤ p.fracFuse ∧ p.fracFuse ≤ 1) ∧ (0 ≤ p.fracCollapse ∧ p.fracCollapse ≤ 1)

lemma ProgressState.init_wf : ProgressState.init.wf := by
  unfold ProgressState.wf ProgressState.init
  norm_num

lemma StageEvent.frac_bounds (ev : StageEvent) (h : ev.wf) :
    0 ≤ ev.frac ∧ ev.frac ≤ 1 := by
  obtain ⟨hpos, hle⟩ := h
  unfold StageEvent.frac
  constructor
  · positivity
  · rw [div_le_one (by exact_mod_cast hpos)]
    exact_mod_cast hle

lemma ProgressState.record_wf (p : ProgressState) (ev : StageEvent)
    (hp : p.wf) (hev : ev.wf) : (p.record ev).wf := by
  have hb := ev.frac_bounds hev
  unfold ProgressState.record
  split
  · exact ⟨hb, hp.2.1, hp.2.2.1, hp.2.2.2⟩
  · split
    · exact ⟨hp.1, hb, hp.2.2.1, hp.2.2.2⟩
    · split
      · exact ⟨hp.1, hp.2.1, hb, hp.2.2.2⟩
      · split
        · exact ⟨hp.1, hp.2.1, hp.2.2.1, hb⟩
        · exact hp

lemma overall_percentage_bounds (p : ProgressState) (hp : p.wf) :
    0 ≤ overall_percentage p ∧ overall_percentage p ≤ 100 := by
  obtain ⟨⟨a0, a1⟩, ⟨b0, b1⟩, ⟨f0, f1⟩, ⟨c0, c1⟩⟩ := hp
  unfold overall_percentage
  constructor <;> nlinarith

lemma overall_percentage_record_mono (p : ProgressState) (ev : StageEvent)
    (hord : p.frac ev.stage_key ≤ ev.frac) :
    overall_percentage p ≤ overall_percentage (p.record ev) := by
  unfold ProgressState.frac at hord
  unfold ProgressState.record overall_percentage
  split
  · rename_i h
    rw [if_pos h] at hord
    simp only
    linarith
  · rename_i h
    rw [if_neg h] at hord
    split
    · rename_i h2
      rw [if_pos h2] at hord
      simp only
      linarith
    · rename_i h2
      rw [if_neg h2] at hord
      split
      · rename_i h3
        rw [if_pos h3] at hord
        simp only
        linarith
      · rename_i h3
        rw [if_neg h3] at hord
        split
        · rename_i h4
          rw [if_pos h4] at hord
          simp only
          linarith
        · exact le_refl _

lemma progressTrace_head (q : ProgressState) (evs : List StageEvent) :
    (progressTrace q evs).head? = some q := by
  cases evs <;> rfl

lemma deliverable_trace (p : ProgressState) (evs : List StageEvent)
    (h : DeliverableFrom p evs) : p.wf →
    (progressTrace p evs).Chain'
        (fun a b => overall_percentage a ≤ overall_percentage b) ∧
    ∀ q ∈ progressTrace p evs, q.wf := by
  induction h with
  | nil p =>
    intro hp
    refine ⟨by simp [progressTrace], ?_⟩
    intro q hq
    simp [progressTrace] at hq
    exact hq ▸ hp
  | cons p ev evs hwf hord htail ih =>
    intro hp
    have hwfrec : (p.record ev).wf := p.record_wf ev hp hwf
    obtain ⟨ihchain, ihmem⟩ := ih hwfrec
    constructor
    · show List.Chain' _ (p :: progressTrace (p.record ev) evs)
      rw [List.chain'_cons']
      refine ⟨?_, ihchain⟩
      intro b hb
      rw [progressTrace_head] at hb
      cases hb
      exact overall_percentage_record_mono p ev hord
    · intro q hq
      rcases List.mem_cons.mp hq with hq | hq
      · exact hq ▸ hp
      · exact ihmem q hq

lemma runW_cons (s : WindowState) (ev : WEvent) (evs : List WEvent) :
    runW s (ev :: evs) = runW (stepW s ev) evs := rfl

/-- While no run has completed the engine holds no output image. -/
def NoOutputInv (s : WindowState) : Prop :=
  s.runsCompleted = 0 → s.engine.output_image = none

/-- While no worker is active the `TimeRemainingHandler` cache is empty. -/
def IdleCacheInv (s : WindowState) : Prop :=
  s.activeWorkers = 0 → s.timeCache = []

lemma stepW_noOutputInv (s : WindowState) (ev : WEvent) (h : NoOutputInv s) :
    NoOutputInv (stepW s ev) := by
  cases ev with
  | setImages ps c =>
    by_cases hps : 0 < ps.length
    · by_cases hcl : (clear_all_images s c).2 = false
      · simpa [stepW, set_new_loaded_image_files, hps, hcl] using h
      · simp [stepW, set_new_loaded_image_files, hps, hcl, update_image_paths,
          NoOutputInv]
    · simpa [stepW, set_new_loaded_image_files, hps] using h
  | clearImages c =>
    by_cases h1 : 0 < s.engine.image_paths.length
    · by_cases h2 : c = true
      · simp [stepW, clear_all_images, h1, h2, update_image_paths, NoOutputInv]
      · simpa [stepW, clear_all_images, h1, h2] using h
    · simpa [stepW, clear_all_images, h1] using h
  | startStack =>
    by_cases h1 : s.loadedImagePaths.length = 0
    · simpa [stepW, stack_loaded_images, h1] using h
    · simpa [stepW, stack_loaded_images, h1, NoOutputInv] using h
  | startAlignStack d =>
    by_cases h1 : s.loadedImagePaths.length = 0
    · simpa [stepW, align_and_stack_loaded_images, h1] using h
    · simp [stepW, align_and_stack_loaded_images, h1, NoOutputInv]
  | interTask k t =>
    by_cases h1 : 0 < s.activeWorkers
    · simpa [stepW, h1, NoOutputInv] using h
    · simpa [stepW, h1] using h
  | finishStack d =>
    by_cases h1 : 0 < s.activeWorkers
    · simp [stepW, h1, NoOutputInv]
    · simpa [stepW, h1] using h

lemma runW_noOutputInv (evs : List WEvent) :
    NoOutputInv (runW WindowState.init evs) := by
  suffices h : ∀ s, NoOutputInv s → NoOutputInv (runW s evs) by
    refine h _ ?_
    intro _
    rfl
  induction evs with
  | nil => exact fun s hs => hs
  | cons ev evs ih =>
    intro s hs
    rw [runW_cons]
    exact ih _ (stepW_noOutputInv s ev hs)

lemma stepW_idleCacheInv (s : WindowState) (ev : WEvent) (h : IdleCacheInv s) :
    IdleCacheInv (stepW s ev) := by
  cases ev with
  | setImages ps c =>
    by_cases hps : 0 < ps.length
    · by_cases hcl : (clear_all_images s c).2 = false
      · simpa [stepW, set_new_loaded_image_files, hps, hcl] using h
      · by_cases h1 : 0 < s.engine.image_paths.length
        · by_cases h2 : c = true
          · simpa [stepW, set_new_loaded_image_files, clear_all_images, hps, hcl,
              h1, h2, update_image_paths, IdleCacheInv] using h
          · simp [clear_all_images, h1, h2] at hcl
        · simpa [stepW, set_new_loaded_image_files, clear_all_images, hps, hcl,
            h1, update_image_paths, IdleCacheInv] using h
    · simpa [stepW, set_new_loaded_image_files, hps] using h
  | clearImages c =>
    by_cases h1 : 0 < s.engine.image_paths.length
    · by_cases h2 : c = true
      · simpa [stepW, clear_all_images, h1, h2, update_image_paths,
          IdleCacheInv] using h
      · simpa [stepW, clear_all_images, h1, h2] using h
    · simpa [stepW, clear_all_images, h1] using h
  | startStack =>
    by_cases h1 : s.loadedImagePaths.length = 0
    · simpa [stepW, stack_loaded_images, h1] using h
    · simp [stepW, stack_loaded_images, h1, IdleCacheInv]
  | startAlignStack d =>
    by_cases h1 : s.loadedImagePaths.length = 0
    · simpa [stepW, align_and_stack_loaded_images, h1] using h
    · simpa [stepW, align_and_stack_loaded_images, h1, IdleCacheInv] using h
  | interTask k t =>
    by_cases h1 : 0 < s.activeWorkers
    · simp [stepW, h1, IdleCacheInv]
      omega
    · simpa [stepW, h1] using h
  | finishStack d =>
    by_cases h1 : 0 < s.activeWorkers
    · simp [stepW, h1, IdleCacheInv]
    · simpa [stepW, h1] using h

lemma runW_idleCacheInv (evs : List WEvent) :
    IdleCacheInv (runW WindowState.init evs) := by
  suffices h : ∀ s, IdleCacheInv s → IdleCacheInv (runW s evs) by
    refine h _ ?_
    intro _
    rfl
  induction evs with
  | nil => exact fun s hs => hs
  | cons ev evs ih =>
    intro s hs
    rw [runW_cons]
    exact ih _ (stepW_idleCacheInv s ev hs)

lemma stepW_startStack_timeCache (s : WindowState) :
    (stepW s WEvent.startStack).timeCache = s.timeCache := by
  show (stack_loaded_images s).1.timeCache = s.timeCache
  unfold stack_loaded_images
  split <;> rfl

/-! ## Concrete states used by witnesses and counterexamples -/

/-- The resolution of the ten test input images
(`tests/test_algorithm_API.py`): 4000×6000, 3 channels. -/
def testShape : Shape := { height := 4000, width := 6000, channels := 3 }

/-- Ten input image paths, as loaded by `test_image_paths_update` from
`tests/low_res_images`. -/
def testImagePaths : List String :=
  (List.range 10).map (fun i => "tests/low_res_images/" ++ toString i ++ ".jpg")

/-- The engine after `update_image_paths` on the ten test paths. -/
def testEngine : EngineState := update_image_paths EngineState.init testImagePaths

/-- The decoded shapes of the ten test images. -/
def testDecoded : List Shape := List.replicate 10 testShape

/-- A window state with one loaded image and a stacking worker already
active on the thread pool. -/
def busyWindowState : WindowState :=
  { WindowState.init with loadedImagePaths := ["a.jpg"], activeWorkers := 1 }

/-- An engine holding the results of a previous run. -/
def staleEngine : EngineState :=
  { image_paths := ["old.jpg"]
    output_image := some { shape := testShape, dtype := Dtype.uint8 }
    pyramidStore := [(0, 0), (0, 1)] }

/-- A window state with loaded images and a produced output, about to be
asked to replace its images. -/
def loadedWindowState : WindowState :=
  { WindowState.init with
      loadedImagePaths := ["old.jpg"]
      engine := staleEngine
      displayedOutput := some { shape := testShape, dtype := Dtype.uint8 } }

/-- An event trace with one full stacking run: load an image, start the
run, observe one per-stage signal, finish. -/
def oneRunTrace : List WEvent :=
  [WEvent.setImages ["a.jpg"] true, WEvent.startStack,
   WEvent.interTask "fuse" 1, WEvent.finishStack [testShape]]

/-- A deliverable progress-event sequence: alignment half done, then
fusion completed. -/
def sampleStageEvents : List StageEvent :=
  [{ stage_key := "align", images_done := 1, images_total := 2, elapsed := 1 },
   { stage_key := "fuse", images_done := 2, images_total := 2, elapsed := 3 }]

/-! ## Claims -/

/-- C1: with an empty loaded image list, both `stack_loaded_images` and
`align_and_stack_loaded_images` report the input error and return with the
whole window state (engine included) unchanged: the stacking algorithm is
never invoked and no worker is started. -/
theorem empty_images_stack_rejected (s : WindowState) (decoded : List Shape)
    (h : s.loadedImagePaths = []) :
    stack_loaded_images s = (s, RunOutcome.errorNoImages) ∧
    align_and_stack_loaded_images s decoded = (s, RunOutcome.errorNoImages) := by
  constructor <;> simp [stack_loaded_images, align_and_stack_loaded_images, h]

/-- Witness for C1 at the freshly initialised window. -/
theorem empty_images_stack_rejected_witness :
    stack_loaded_images WindowState.init
      = (WindowState.init, RunOutcome.errorNoImages) ∧
    align_and_stack_loaded_images WindowState.init [testShape]
      = (WindowState.init, RunOutcome.errorNoImages) :=
  empty_images_stack_rejected WindowState.init [testShape] rfl

/-- C2: for the run over the ten 4000×6000×3 test inputs, the engine holds
ten image paths and the completed stack produces an output image of shape
(4000, 6000, 3) with 8-bit unsigned elements, the extent and channel
layout of the reference source image. -/
theorem stack_run_output_extent :
    testEngine.image_paths.length = 10 ∧
    (stack_images testEngine testDecoded).output_image
      = some { shape := testShape, dtype := Dtype.uint8 } ∧
    testShape = { height := 4000, width := 6000, channels := 3 } :=
  ⟨rfl, rfl, rfl⟩

/-- C3: for every non-empty path list, the engine's set-images operation
replaces the input set with exactly that list, invalidates any previous
output image and discards all pyramid-store entries of the prior run. -/
theorem set_images_replaces_and_invalidates (e : EngineState)
    (paths : List String) (_h : paths ≠ []) :
    (update_image_paths e paths).image_paths = paths ∧
    (update_image_paths e paths).output_image = none ∧
    (update_image_paths e paths).pyramidStore = [] :=
  ⟨rfl, rfl, rfl⟩

/-- Witness for C3 on an engine holding a previous run's results. -/
theorem set_images_replaces_and_invalidates_witness :
    (update_image_paths staleEngine ["new.jpg"]).image_paths = ["new.jpg"] ∧
    (update_image_paths staleEngine ["new.jpg"]).output_image = none ∧
    (update_image_paths staleEngine ["new.jpg"]).pyramidStore = [] :=
  set_images_replaces_and_invalidates staleEngine ["new.jpg"] (by decide)

/-- C4 counterexample: in a state with a stacking worker already active
and one loaded image, invoking the stack operation is not rejected — it
hands a second worker to the thread pool, so a second concurrent run of
the pipeline does start. -/
theorem concurrent_run_not_rejected_cex :
    1 ≤ busyWindowState.activeWorkers ∧
    (stack_loaded_images busyWindowState).2 = RunOutcome.workerStarted ∧
    (stack_loaded_images busyWindowState).1.activeWorkers
      = busyWindowState.activeWorkers + 1 := by
  decide

/-- C4 (amended): starting a new run while one is active is neither
rejected nor queued-with-a-guard — whenever the loaded image list is
non-empty, invoking the stack operation starts one more worker regardless
of any run already in progress; an empty image list is the only rejection
condition. -/
theorem stack_no_concurrency_guard (s : WindowState)
    (h : s.loadedImagePaths ≠ []) :
    (stack_loaded_images s).2 = RunOutcome.workerStarted ∧
    (stack_loaded_images s).1.activeWorkers = s.activeWorkers + 1 := by
  have hlen : ¬ s.loadedImagePaths.length = 0 := by
    simpa [List.length_eq_zero] using h
  constructor <;> simp [stack_loaded_images, hlen]

/-- Witness for the amended C4 at a state with an active worker. -/
theorem stack_no_concurrency_guard_witness :
    (stack_loaded_images busyWindowState).2 = RunOutcome.workerStarted ∧
    (stack_loaded_images busyWindowState).1.activeWorkers
      = busyWindowState.activeWorkers + 1 :=
  stack_no_concurrency_guard busyWindowState (by decide)

/-- C5: for every sequence of per-stage progress events deliverable during
a run, every overall percentage along the trace lies in [0, 100], equals
the weighted sum over the stages of that stage's `images_done/images_total`
fraction, and is non-decreasing from each event to the next. -/
theorem progress_percentage_bounded_monotone (evs : List StageEvent)
    (h : DeliverableFrom ProgressState.init evs) :
    (progressTrace ProgressState.init evs).Chain'
        (fun a b => overall_percentage a ≤ overall_percentage b) ∧
    ∀ q ∈ progressTrace ProgressState.init evs,
      0 ≤ overall_percentage q ∧ overall_percentage q ≤ 100 ∧
      overall_percentage q =
        stageWeight "align" * q.frac "align" + stageWeight "build" * q.frac "build"
          + stageWeight "fuse" * q.frac "fuse"
          + stageWeight "collapse" * q.frac "collapse" := by
  obtain ⟨hchain, hmem⟩ := deliverable_trace _ _ h ProgressState.init_wf
  refine ⟨hchain, fun q hq => ?_⟩
  obtain ⟨h0, h100⟩ := overall_percentage_bounds q (hmem q hq)
  refine ⟨h0, h100, ?_⟩
  simp [stageWeight, ProgressState.frac, overall_percentage]

/-- Witness for C5 on a two-event trace. -/
theorem progress_percentage_bounded_monotone_witness :
    (progressTrace ProgressState.init sampleStageEvents).Chain'
        (fun a b => overall_percentage a ≤ overall_percentage b) ∧
    ∀ q ∈ progressTrace ProgressState.init sampleStageEvents,
      0 ≤ overall_percentage q ∧ overall_percentage q ≤ 100 ∧
      overall_percentage q =
        stageWeight "align" * q.frac "align" + stageWeight "build" * q.frac "build"
          + stageWeight "fuse" * q.frac "fuse"
          + stageWeight "collapse" * q.frac "collapse" :=
  progress_percentage_bounded_monotone sampleStageEvents
    (by
      refine DeliverableFrom.cons _ _ _ (by decide) ?_
        (DeliverableFrom.cons _ _ _ (by decide) ?_ (DeliverableFrom.nil _))
      · simp only [ProgressState.frac, ProgressState.record, StageEvent.frac,
          ProgressState.init]
        split_ifs <;> norm_num
      · simp only [ProgressState.frac, ProgressState.record, StageEvent.frac,
          ProgressState.init]
        split_ifs <;> norm_num)

/-- C6: along any event trace in which no run has completed, the engine's
output image is absent, and invoking the export operation in that state
shows the export-failed error box, leaves the state unchanged and writes
no file to disk. -/
theorem no_completed_run_export_fails (evs : List WEvent)
    (dialogPath : Option String) (writeSucceeds : Bool)
    (h : (runW WindowState.init evs).runsCompleted = 0) :
    (runW WindowState.init evs).engine.output_image = none ∧
    export_output_image (runW WindowState.init evs) dialogPath writeSucceeds
      = (runW WindowState.init evs, ExportOutcome.errorNoOutput, []) := by
  have hn := runW_noOutputInv evs h
  refine ⟨hn, ?_⟩
  simp [export_output_image, hn]

/-- Witness for C6: a trace that loads images and starts a run without
finishing it has completed no run. -/
theorem no_completed_run_export_fails_witness :
    (runW WindowState.init
        [WEvent.setImages ["a.jpg"] true, WEvent.startStack]).engine.output_image
      = none ∧
    export_output_image
        (runW WindowState.init [WEvent.setImages ["a.jpg"] true, WEvent.startStack])
        (some "out.jpg") true
      = (runW WindowState.init [WEvent.setImages ["a.jpg"] true, WEvent.startStack],
         ExportOutcome.errorNoOutput, []) :=
  no_completed_run_export_fails
    [WEvent.setImages ["a.jpg"] true, WEvent.startStack] (some "out.jpg") true
    (by decide)

/-- C7: the engine is constructed from the three parameters
`(scratch_directory, pyramid_depth, max_concurrency)`; under the
precondition that the scratch directory is writable, the values the main
window supplies (depth 6, concurrency 8) satisfy the construction
preconditions `pyramid_depth ≥ 1` and `max_concurrency ≥ 1`. -/
theorem engine_construction_params_valid (writable : List String)
    (dir : String) (h : dir ∈ writable) :
    (windowEngineConfig dir).valid writable ∧
    (windowEngineConfig dir).pyramid_depth = 6 ∧
    (windowEngineConfig dir).max_concurrency = 8 :=
  ⟨⟨h, by norm_num [windowEngineConfig], by norm_num [windowEngineConfig]⟩,
   rfl, rfl⟩

/-- Witness for C7 with a writable temp directory. -/
theorem engine_construction_params_valid_witness :
    (windowEngineConfig "/tmp/FocusStacking_x").valid ["/tmp/FocusStacking_x"] ∧
    (windowEngineConfig "/tmp/FocusStacking_x").pyramid_depth = 6 ∧
    (windowEngineConfig "/tmp/FocusStacking_x").max_concurrency = 8 :=
  engine_construction_params_valid ["/tmp/FocusStacking_x"]
    "/tmp/FocusStacking_x" (by decide)

/-- C8: whenever the window is idle (no worker active — the only states a
fresh run can start from), the rolling per-stage duration cache of the
`TimeRemainingHandler` is empty, and it is still empty in the state in
which a freshly started stacking run begins; so the ETA extrapolated
during a fresh run never uses per-image durations observed in a previous
run. -/
theorem fresh_run_empty_duration_cache (evs : List WEvent)
    (h : (runW WindowState.init evs).activeWorkers = 0) :
    (runW WindowState.init evs).timeCache = [] ∧
    (stepW (runW WindowState.init evs) WEvent.startStack).timeCache = [] := by
  have h1 := runW_idleCacheInv evs h
  exact ⟨h1, by rw [stepW_startStack_timeCache]; exact h1⟩

/-- Witness for C8 on a trace with one completed run (whose per-stage
durations went through the cache). -/
theorem fresh_run_empty_duration_cache_witness :
    (runW WindowState.init oneRunTrace).timeCache = [] ∧
    (stepW (runW WindowState.init oneRunTrace) WEvent.startStack).timeCache = [] :=
  fresh_run_empty_duration_cache oneRunTrace (by decide)

/-- C9: replacing the loaded image set is all-or-nothing — with an empty
new list, or when images are loaded and the user declines the
confirmation, `set_new_loaded_image_files` leaves the whole window state
(loaded paths, engine paths, current image directory, displayed output)
unchanged. -/
theorem set_images_all_or_nothing (s : WindowState) (newImgs : List String)
    (confirmOk : Bool)
    (h : newImgs = [] ∨ (s.engine.image_paths ≠ [] ∧ confirmOk = false)) :
    set_new_loaded_image_files s newImgs confirmOk = s := by
  rcases h with h | ⟨hp, hc⟩
  · simp [set_new_loaded_image_files, h]
  · have hcl : (clear_all_images s confirmOk).2 = false := by
      simp [clear_all_images, List.length_pos.mpr hp, hc]
    by_cases hn : 0 < newImgs.length
    · simp [set_new_loaded_image_files, hn, hcl]
    · simp [set_new_loaded_image_files, hn]

/-- Witness for C9: declining the confirmation leaves the loaded window
untouched. -/
theorem set_images_all_or_nothing_witness :
    set_new_loaded_image_files loadedWindowState ["b.jpg"] false
      = loadedWindowState :=
  set_images_all_or_nothing loadedWindowState ["b.jpg"] false
    (Or.inr ⟨by decide, rfl⟩)

/-- C10: the intermediate-progress callback unpacks a delivered event as
exactly a 4-tuple `(task_key, num_processed, num_to_process_total,
time_taken)` and divides with no zero guard; whenever
`num_to_process_total ≠ 0` the division is well-defined and yields
`num_processed / num_to_process_total * 100` — the division-by-zero error
branch is unreachable. -/
theorem inter_task_division_welldefined (k : String) (d t e : ℚ)
    (ht : t ≠ 0) :
    (unpack4 [PyVal.str k, PyVal.num d, PyVal.num t, PyVal.num e]).isSome
        = true ∧
    finished_inter_task_percentage
        [PyVal.str k, PyVal.num d, PyVal.num t, PyVal.num e]
      = some (d / t * 100) := by
  refine ⟨rfl, ?_⟩
  simp [finished_inter_task_percentage, unpack4, pyDiv, ht]

/-- Witness for C10 on the event of three images fused out of ten. -/
theorem inter_task_division_welldefined_witness :
    (unpack4 [PyVal.str "fuse", PyVal.num 3, PyVal.num 10, PyVal.num 2]).isSome
        = true ∧
    finished_inter_task_percentage
        [PyVal.str "fuse", PyVal.num 3, PyVal.num 10, PyVal.num 2]
      = some (3 / 10 * 100) :=
  inter_task_division_welldefined "fuse" 3 10 2 (by norm_num)

end ChimpStackr
